import Mathlib

/-!
Verification development for the Climate Control System
(actuator leaf node and sensor hub).

The leaf node (`src/unnamed/part_000`) owns one relay output and three
globals: `PowerIsOn : boolean`, `TimeStart : unsigned long` (a `millis()`
timestamp in milliseconds) and `OnPeriod : int` (a window in milliseconds).
Its `loop` does a bounded 500 ms wait for a radio message; on a received
message addressed to this node it dispatches to `powerOn`/`powerOff`,
otherwise, when the power is on, it runs `checkTime`.

The hub (`src/HubNode.ino`) samples temperature and humidity, applies a
dead-band rule per quantity, and transmits 3-byte command packets.

Modelling conventions:
- time is an unwrapped `Nat` in milliseconds; the C expression
  `millis() - TimeStart` on `unsigned long` agrees with `Nat` subtraction
  for monotone time below the 32-bit wrap (about 49.7 days);
- the sketches target 8-bit AVR Arduino boards (RH_ASK default pins,
  10-bit ADC, 5 V reference), where `int` is 16 bits wide: the store
  `OnPeriod = onTime * 1000` keeps only the low 16 bits of the product,
  so it wraps for every duration byte of 33 seconds or more, and the
  comparison `millis() - TimeStart > OnPeriod` converts the signed
  16-bit value to the 32-bit `unsigned long` by sign extension — the
  state field `onPeriod` holds the stored 16-bit pattern and
  `onPeriodAsULong` gives the converted comparison threshold;
- the relay line (`digitalWrite(PowerPin, ...)`) is the `relay` field:
  `true` for HIGH (energized), `false` for LOW;
- measured values compared against integer thresholds are modelled as
  rationals: the hub's comparisons on `float` are exact comparisons of the
  represented values.
-/

namespace CCS

/-- Runtime state of the actuator leaf node: the three globals of
`src/unnamed/part_000` plus the last level written to the relay pin.
`onPeriod` is the bit pattern of the 16-bit `int OnPeriod` (a value
below 2^16); `timeStart` is the `unsigned long TimeStart` millisecond
timestamp. -/
structure NodeState where
  powerIsOn : Bool
  timeStart : Nat
  onPeriod  : Nat
  relay     : Bool
deriving DecidableEq, Repr

/-- The value `OnPeriod` contributes to `millis() - TimeStart > OnPeriod`:
the signed 16-bit pattern converted to the 32-bit `unsigned long`, so a
pattern with the sign bit set (stored value negative) becomes a threshold
near 2^32 milliseconds. -/
def onPeriodAsULong (b : Nat) : Nat :=
  if b < 32768 then b else b + 4294901760

/-- The `#define NodeID 3` of the leaf source (the fan node). -/
def NodeID : Nat := 3

/-- State at node start: the globals are zero-initialized and the output
pin is LOW after `setup`. -/
def initState : NodeState :=
  { powerIsOn := false, timeStart := 0, onPeriod := 0, relay := false }

/-- Function `powerOn(uint8_t onTime)` of the leaf source: records the current
time, marks the power on, stores `onTime * 1000` into the 16-bit
`OnPeriod` (keeping the low 16 bits of the product) and drives the
relay HIGH. -/
def powerOn (s : NodeState) (now : Nat) (onTime : Nat) : NodeState :=
  { s with timeStart := now, powerIsOn := true,
           onPeriod := (onTime * 1000) % 65536, relay := true }

/-- Function `powerOff(uint8_t offTime)` of the leaf source: with `offTime = 0`
while on, drives the relay LOW immediately; with `offTime > 0` while on,
restarts the window, storing `offTime * 1000` into the 16-bit
`OnPeriod` (low 16 bits of the product); while off, ignores. -/
def powerOff (s : NodeState) (now : Nat) (offTime : Nat) : NodeState :=
  if offTime = 0 ∧ s.powerIsOn = true then
    { s with relay := false, powerIsOn := false }
  else if s.powerIsOn = true then
    { s with timeStart := now, onPeriod := (offTime * 1000) % 65536 }
  else s

/-- Function `checkTime()` of the leaf source: if `millis() - TimeStart > OnPeriod`
the relay is driven LOW and the power marked off. The comparison pits
the 32-bit unsigned elapsed time against the sign-extended 16-bit
`OnPeriod`. -/
def checkTime (s : NodeState) (now : Nat) : NodeState :=
  if now - s.timeStart > onPeriodAsULong s.onPeriod then
    { s with relay := false, powerIsOn := false }
  else s

/-- One iteration of the leaf `loop`: `msg` is the received buffer
(`none` when `recv` reported nothing within the 500 ms wait). The source
reads exactly three bytes `buf[0]`, `buf[1]`, `buf[2]`; `(boolean) buf[1]`
is true exactly for a non-zero byte. When a message was received,
`checkTime` is not run this iteration (it sits in the `else` branch). -/
def tick (s : NodeState) (now : Nat) (msg : Option (Nat × Nat × Nat)) :
    NodeState :=
  match msg with
  | some (b0, b1, b2) =>
    if NodeID = b0 then
      (if b1 ≠ 0 then powerOn s now b2 else powerOff s now b2)
    else s
  | none => if s.powerIsOn then checkTime s now else s

/-- The node state right after `powerOn` at time `t0` with a requested
window byte of `p` seconds (stored 16-bit pattern of `p * 1000`). -/
def onState (t0 p : Nat) : NodeState :=
  { powerIsOn := true, timeStart := t0,
    onPeriod := (p * 1000) % 65536, relay := true }

theorem powerOn_eq (s : NodeState) (now p : Nat) :
    powerOn s now p = onState now p := rfl

theorem tick_none_off (s : NodeState) (h : s.powerIsOn = false) (t : Nat) :
    tick s t none = s := by
  simp [tick, h]

theorem tick_none_on_le (s : NodeState) (h : s.powerIsOn = true) (t : Nat)
    (ht : t ≤ s.timeStart + onPeriodAsULong s.onPeriod) :
    tick s t none = s := by
  have hle : ¬ (t - s.timeStart > onPeriodAsULong s.onPeriod) := by omega
  simp [tick, h, checkTime, hle]

theorem tick_none_on_gt (s : NodeState) (h : s.powerIsOn = true) (t : Nat)
    (ht : s.timeStart + onPeriodAsULong s.onPeriod < t) :
    tick s t none = { s with relay := false, powerIsOn := false } := by
  have hgt : t - s.timeStart > onPeriodAsULong s.onPeriod := by omega
  simp [tick, h, checkTime, hgt]

/-- The codec's failure value. -/
inductive DecodeError where
  | MalformedPacket
deriving DecidableEq, Repr

/-- Function `powerNode` of the hub source builds the 3-byte command packet:
byte 0 = ID, byte 1 = `(uint8_t) powerOn`, byte 2 = duration. The two
byte-sized fields are reduced mod 256 as `uint8_t` values. -/
def encode (t : Nat) (a : Bool) (d : Nat) : List Nat :=
  [t % 256, if a then 1 else 0, d % 256]

/-- The Packet Codec's `decode` of the spec's §4.1 contract. On inputs
of 3 or more bytes the field extraction is exactly the leaf `loop`'s:
target `buf[0]`, activate `(boolean) buf[1]` (non-zero byte), duration
`buf[2]`. The shorter-than-3-bytes guard is the codec contract's failure
case only: the leaf code performs no length check at all (see
`loopStep`). -/
def decode (buf : List Nat) : Except DecodeError (Nat × Bool × Nat) :=
  if buf.length < 3 then Except.error DecodeError.MalformedPacket
  else Except.ok (buf.getD 0 0, decide (buf.getD 1 0 ≠ 0), buf.getD 2 0)

/-- The byte the leaf `loop` obtains for `buf[i]`: the message byte when
the received message covers position `i`, and otherwise whatever the
uninitialized stack buffer `uint8_t buf[RH_ASK_MAX_MESSAGE_LEN]` holds
there, supplied by `stack`. -/
def bufRead (buf : List Nat) (stack : Nat → Nat) (i : Nat) : Nat :=
  buf.getD i (stack i)

/-- The message branch of the leaf `loop` on a received buffer: the
source compares `NodeID == buf[0]` and dispatches on `buf[1]`/`buf[2]`
with no length check, so a message shorter than 3 bytes is read out to
uninitialized stack bytes. -/
def loopStep (s : NodeState) (now : Nat) (buf : List Nat)
    (stack : Nat → Nat) : NodeState :=
  tick s now
    (some (bufRead buf stack 0, bufRead buf stack 1, bufRead buf stack 2))

/-- Hub constants (`#define` lines of `src/HubNode.ino`). -/
def TargetTemp : ℚ := 21

def TargetHumidity : ℚ := 40

def ToleranceTemp : ℚ := 1

def ToleranceHumidity : ℚ := 5

def TimeOnHeater : Nat := 20

def TimeOnHumidifier : Nat := 15

def TimeOnFan : Nat := 30

def HubNode : Nat := 0

def HumNode : Nat := 1

def HeatNode : Nat := 2

def FanNode : Nat := 3

/-- The three-way outcome of the hub's dead-band rule for one quantity. -/
inductive Decision where
  | ActivateRequested
  | DeactivateRequested
  | NoChange
deriving DecidableEq, Repr

/-- The hub's dead-band rule (`loop`, the two if/else-if ladders):
deactivate above `target + tolerance`, otherwise activate below
`target - tolerance`, otherwise no change. -/
def hysteresis (target tol v : ℚ) : Decision :=
  if v > target + tol then Decision.DeactivateRequested
  else if v < target - tol then Decision.ActivateRequested
  else Decision.NoChange

/-- One hub `loop` cycle as the list of packets transmitted, in source
order: humidifier first, then heater, then the fan (activated whenever
heating or humidifying was activated, and never deactivated). Each
packet is `(target_id, activate, duration_seconds)`. -/
def hubCycle (temp humidity : ℚ) : List (Nat × Bool × Nat) :=
  let heatingOff := decide (temp > TargetTemp + ToleranceTemp)
  let heatingOn := !heatingOff && decide (temp < TargetTemp - ToleranceTemp)
  let humidifierOff :=
    decide (humidity > TargetHumidity + ToleranceHumidity)
  let humidifierOn := !humidifierOff &&
    decide (humidity < TargetHumidity - ToleranceHumidity)
  (if humidifierOn then [(HumNode, true, TimeOnHumidifier)]
   else if humidifierOff then [(HumNode, false, 0)] else []) ++
  (if heatingOn then [(HeatNode, true, TimeOnHeater)]
   else if heatingOff then [(HeatNode, false, 0)] else []) ++
  (if heatingOn || humidifierOn then [(FanNode, true, TimeOnFan)] else [])

/-- C1: the claim as frozen is refuted at a concrete tick. With the node
on since time 0 for a 1-second window and the current time 5000 ms, a
tick that received a message (here one addressed to node 2, not this
node's id 3) leaves the node on: the expiry check is skipped whenever a
message arrived, because `checkTime` sits in the `else` branch of
`recv`. -/
theorem C1_expiry_skipped_on_message_tick :
    (onState 0 1).powerIsOn = true ∧
    (onState 0 1).timeStart + onPeriodAsULong (onState 0 1).onPeriod
      < 5000 ∧
    (tick (onState 0 1) 5000 (some (2, 1, 5))).powerIsOn = true := by
  decide

/-- C1 (amended): while on, on every poll tick in which no message was
received, if the elapsed time since `TimeStart` exceeds `OnPeriod` the
node transitions to off and de-energizes the relay; on a tick in which a
message arrived the expiry check is skipped (a message addressed to
another node leaves the state entirely unchanged, deferring shutoff to
the next message-free tick). -/
theorem C1_expiry_on_quiet_tick (s : NodeState) (hOn : s.powerIsOn = true)
    (now : Nat) (hExp : s.timeStart + onPeriodAsULong s.onPeriod < now) :
    ((tick s now none).powerIsOn = false ∧
      (tick s now none).relay = false) ∧
    ∀ b0 b1 b2 : Nat, b0 ≠ NodeID → tick s now (some (b0, b1, b2)) = s := by
  constructor
  · rw [tick_none_on_gt s hOn now hExp]
    exact ⟨rfl, rfl⟩
  · intro b0 b1 b2 hb0
    simp [tick, Ne.symm hb0]

theorem C1_expiry_on_quiet_tick_witness :
    (onState 0 1).powerIsOn = true ∧
    (onState 0 1).timeStart + onPeriodAsULong (onState 0 1).onPeriod
      < 2000 ∧
    ((tick (onState 0 1) 2000 none).powerIsOn = false ∧
      (tick (onState 0 1) 2000 none).relay = false) :=
  ⟨by decide, by decide,
    (C1_expiry_on_quiet_tick (onState 0 1) (by decide) 2000 (by decide)).1⟩

/-- C2: the watchdog fail-safe claim fails on the code because
`OnPeriod` is a 16-bit `int`. Duration byte 66 stores
66000 mod 2^16 = 464 ms, so with no further packets the node
de-energizes at a poll tick 465 ms after activation — strictly before
`t0 + 66` s. Duration byte 255 stores the pattern 58392 (value −7144,
sign-extended to 4294960152 ms in the unsigned comparison), so the node
is still energized a full day after activation. -/
theorem C2_onPeriod_wrap :
    (onState 0 66).onPeriod = 464 ∧
    465 < 66 * 1000 ∧
    (tick (onState 0 66) 465 none).powerIsOn = false ∧
    (tick (onState 0 66) 465 none).relay = false ∧
    (onState 0 255).onPeriod = 58392 ∧
    onPeriodAsULong 58392 = 4294960152 ∧
    (tick (onState 0 255) 86400000 none).powerIsOn = true ∧
    (tick (onState 0 255) 86400000 none).relay = true := by
  decide

/-- C3: the deferred-off claim fails on the code by the same 16-bit
store. From an on state, a deactivate packet with duration byte 66 at
`t1 = 0` stores a 464 ms window, so the node shuts off at a poll tick
465 ms later — far before `t1 + 66` s; a deactivate with duration byte
40 stores the pattern 40000 (value −25536), so the node is still
energized a full day later. The immediate branch (duration 0) does
de-energize within the same tick. -/
theorem C3_deferred_off_wrap :
    tick (onState 0 9) 0 (some (NodeID, 0, 66)) =
      { onState 0 9 with onPeriod := 464 } ∧
    (tick { onState 0 9 with onPeriod := 464 } 465 none).powerIsOn
      = false ∧
    465 < 66 * 1000 ∧
    tick (onState 0 9) 0 (some (NodeID, 0, 40)) =
      { onState 0 9 with onPeriod := 40000 } ∧
    (tick { onState 0 9 with onPeriod := 40000 } 86400000 none).powerIsOn
      = true ∧
    (tick (onState 0 9) 0 (some (NodeID, 0, 0))).powerIsOn = false ∧
    (tick (onState 0 9) 0 (some (NodeID, 0, 0))).relay = false := by
  decide

/-- C4: the renewal claim fails on the code by the same 16-bit store.
A node on since `t0 = 0` with a 5 s window that receives a renewal
activate packet with duration byte 66 at `t1 = 4000` ms (before the
original window ends) does reset its window start to `t1` — but stores
a 464 ms window, so it shuts off at a poll tick at `t1 + 465` ms, far
before `t1 + 66` s. -/
theorem C4_renewal_wrap :
    tick (onState 0 5) 4000 (some (NodeID, 1, 66)) = onState 4000 66 ∧
    (onState 4000 66).onPeriod = 464 ∧
    4465 < 4000 + 66 * 1000 ∧
    (tick (onState 4000 66) 4465 none).powerIsOn = false ∧
    (tick (onState 4000 66) 4465 none).relay = false := by
  decide

/-- C5: the claim as frozen is refuted at a concrete input. The leaf
`loop` performs no length check: a 1-byte message whose only byte
matches this node's id is dispatched on uninitialized stack bytes (here
1 and 20), turning the power on — not discarded with no state change. -/
theorem C5_short_packet_not_discarded :
    ([(3:Nat)]).length < 3 ∧
    (loopStep initState 100 [3]
      (fun i => if i = 1 then 1 else 20)).powerIsOn = true ∧
    loopStep initState 100 [3] (fun i => if i = 1 then 1 else 20) ≠
      initState := by
  decide

/-- C5 (amended): received inputs are filtered only by byte 0. Any
input whose byte 0 differs from the node's identity — well-formed or
shorter than 3 bytes — is ignored with no change to the node state
(power flag, window start, window length) or to the relay line; an
input whose byte 0 equals the node's identity is dispatched as a
command on bytes 1 and 2, which for an input shorter than 3 bytes come
from the uninitialized receive buffer. -/
theorem C5_dispatch (s : NodeState) (now : Nat) (buf : List Nat)
    (stack : Nat → Nat) :
    (bufRead buf stack 0 ≠ NodeID → loopStep s now buf stack = s) ∧
    (bufRead buf stack 0 = NodeID →
      loopStep s now buf stack =
        (if bufRead buf stack 1 ≠ 0 then
          powerOn s now (bufRead buf stack 2)
         else powerOff s now (bufRead buf stack 2))) := by
  constructor
  · intro h
    simp [loopStep, tick, Ne.symm h]
  · intro h
    simp [loopStep, tick, h]

theorem C5_dispatch_witness :
    (bufRead [2, 1, 5] (fun _ => 0) 0 ≠ NodeID ∧
      loopStep initState 100 [2, 1, 5] (fun _ => 0) = initState) ∧
    (bufRead [3] (fun _ => 1) 0 = NodeID ∧
      loopStep initState 100 [3] (fun _ => 1) = powerOn initState 100 1) :=
  ⟨⟨by decide,
    (C5_dispatch initState 100 [2, 1, 5] (fun _ => 0)).1 (by decide)⟩,
   ⟨by decide, by
    have h := (C5_dispatch initState 100 [3] (fun _ => 1)).2 (by decide)
    simpa using h⟩⟩

/-- C6: decode round-trip. For every byte-ranged target id and duration
and boolean activate flag, decoding the 3-byte positional encoding
returns exactly the original triple. -/
theorem C6_roundtrip (t d : Nat) (a : Bool) (ht : t < 256) (hd : d < 256) :
    decode (encode t a d) = Except.ok (t, a, d) := by
  have ht2 : t % 256 = t := Nat.mod_eq_of_lt ht
  have hd2 : d % 256 = d := Nat.mod_eq_of_lt hd
  cases a <;> simp [encode, decode, ht2, hd2]

theorem C6_roundtrip_witness :
    3 < 256 ∧ 30 < 256 ∧
    decode (encode 3 true 30) = Except.ok (3, true, 30) :=
  ⟨by decide, by decide, C6_roundtrip 3 30 true (by decide) (by decide)⟩

/-- C7: the dead-band rule decides `ActivateRequested` exactly below
`target - tol`, `DeactivateRequested` exactly above `target + tol`, and
`NoChange` exactly on the closed band in between; in particular the
target itself and both band boundaries yield `NoChange` (and, being a
function of its input, the outcome is the same on every evaluation). -/
theorem C7_hysteresis (T tol v : ℚ) (htol : 0 ≤ tol) :
    (hysteresis T tol v = Decision.ActivateRequested ↔ v < T - tol) ∧
    (hysteresis T tol v = Decision.DeactivateRequested ↔ v > T + tol) ∧
    (hysteresis T tol v = Decision.NoChange ↔ T - tol ≤ v ∧ v ≤ T + tol) ∧
    hysteresis T tol T = Decision.NoChange ∧
    hysteresis T tol (T + tol) = Decision.NoChange ∧
    hysteresis T tol (T - tol) = Decision.NoChange := by
  refine ⟨?_, ?_, ?_, ?_, ?_, ?_⟩ <;> unfold hysteresis <;>
    split_ifs with h1 h2 <;> simp_all <;> linarith

theorem C7_hysteresis_witness :
    (0:ℚ) ≤ 1 ∧
    hysteresis 21 1 18 = Decision.ActivateRequested ∧
    hysteresis 21 1 21 = Decision.NoChange ∧
    hysteresis 21 1 22 = Decision.NoChange := by
  have h := C7_hysteresis 21 1 18 (by norm_num)
  have h21 := C7_hysteresis 21 1 21 (by norm_num)
  refine ⟨by norm_num, h.1.mpr (by norm_num), h21.2.2.2.1, ?_⟩
  have : (22:ℚ) = 21 + 1 := by norm_num
  rw [this]
  exact h21.2.2.2.2.1

/-- C8: heating scenario. With measured temperature 18 against target
21 ± 1 and any measured humidity inside its 40 ± 5 band, the heater
decision is `ActivateRequested`, the humidity decision is `NoChange`,
and the cycle transmits exactly two packets, in order: the heater
activate with its configured run length, then the fan activate with
its configured run length. -/
theorem C8_heating_scenario (h : ℚ) (h1 : 35 ≤ h) (h2 : h ≤ 45) :
    hysteresis TargetTemp ToleranceTemp 18 = Decision.ActivateRequested ∧
    hysteresis TargetHumidity ToleranceHumidity h = Decision.NoChange ∧
    hubCycle 18 h =
      [(HeatNode, true, TimeOnHeater), (FanNode, true, TimeOnFan)] := by
  have hOff : ¬ (h > TargetHumidity + ToleranceHumidity) := by
    unfold TargetHumidity ToleranceHumidity
    push_neg
    linarith
  have hOn : ¬ (h < TargetHumidity - ToleranceHumidity) := by
    unfold TargetHumidity ToleranceHumidity
    push_neg
    linarith
  refine ⟨?_, ?_, ?_⟩
  · unfold hysteresis TargetTemp ToleranceTemp
    norm_num
  · unfold hysteresis
    simp [hOff, hOn]
  · unfold hubCycle TargetTemp ToleranceTemp
    simp [hOff, hOn]
    norm_num

theorem C8_heating_scenario_witness :
    (35:ℚ) ≤ 40 ∧ (40:ℚ) ≤ 45 ∧
    hubCycle 18 40 =
      [(HeatNode, true, TimeOnHeater), (FanNode, true, TimeOnFan)] :=
  ⟨by norm_num, by norm_num,
    (C8_heating_scenario 40 (by norm_num) (by norm_num)).2.2⟩

/-- C9: in every cycle, the fan activate packet is transmitted exactly
when at least one primary quantity (temperature or humidity) decides
`ActivateRequested`, and no cycle ever transmits a deactivate packet
addressed to the fan. -/
theorem C9_fan_policy (temp humidity : ℚ) :
    ((FanNode, true, TimeOnFan) ∈ hubCycle temp humidity ↔
      hysteresis TargetTemp ToleranceTemp temp =
        Decision.ActivateRequested ∨
      hysteresis TargetHumidity ToleranceHumidity humidity =
        Decision.ActivateRequested) ∧
    ∀ d : Nat, (FanNode, false, d) ∉ hubCycle temp humidity := by
  by_cases c1 : temp > TargetTemp + ToleranceTemp <;>
    by_cases c2 : temp < TargetTemp - ToleranceTemp <;>
    by_cases c3 : humidity > TargetHumidity + ToleranceHumidity <;>
    by_cases c4 : humidity < TargetHumidity - ToleranceHumidity <;>
    simp [hubCycle, hysteresis, c1, c2, c3, c4, HumNode, HeatNode,
      FanNode, TimeOnHumidifier, TimeOnHeater, TimeOnFan]

theorem C9_fan_policy_witness :
    (FanNode, true, TimeOnFan) ∈ hubCycle 18 40 ∧
    ∀ d : Nat, (FanNode, false, d) ∉ hubCycle 18 40 := by
  have h := C9_fan_policy 18 40
  refine ⟨h.1.mpr (Or.inl ?_), h.2⟩
  unfold hysteresis TargetTemp ToleranceTemp
  norm_num

/-- The leaf node's power flag agrees with the last level written to the
relay line. -/
def relayAgrees (s : NodeState) : Prop := s.powerIsOn = s.relay

theorem relayAgrees_powerOn (s : NodeState) (now d : Nat) :
    relayAgrees (powerOn s now d) := rfl

theorem relayAgrees_powerOff (s : NodeState) (now d : Nat)
    (h : relayAgrees s) : relayAgrees (powerOff s now d) := by
  unfold relayAgrees powerOff at *
  split_ifs <;> simp_all

theorem relayAgrees_checkTime (s : NodeState) (now : Nat)
    (h : relayAgrees s) : relayAgrees (checkTime s now) := by
  unfold relayAgrees checkTime at *
  split_ifs <;> simp_all

theorem relayAgrees_tick (s : NodeState) (now : Nat)
    (msg : Option (Nat × Nat × Nat)) (h : relayAgrees s) :
    relayAgrees (tick s now msg) := by
  match msg with
  | none =>
    show relayAgrees (if s.powerIsOn then checkTime s now else s)
    split_ifs
    · exact relayAgrees_checkTime s now h
    · exact h
  | some (b0, b1, b2) =>
    show relayAgrees (if NodeID = b0 then
      (if b1 ≠ 0 then powerOn s now b2 else powerOff s now b2) else s)
    split_ifs
    · exact relayAgrees_powerOn s now b2
    · exact relayAgrees_powerOff s now b2 h
    · exact h

/-- C10: from the initial state (power flag false, relay de-energized),
each operation the receive loop invokes — `powerOn`, `powerOff`,
`checkTime`, and hence a whole loop iteration — preserves the agreement
between `powerIsOn` and the last level written on the relay line. -/
theorem C10_relay_invariant :
    relayAgrees initState ∧
    (∀ s now d, relayAgrees s → relayAgrees (powerOn s now d)) ∧
    (∀ s now d, relayAgrees s → relayAgrees (powerOff s now d)) ∧
    (∀ s now, relayAgrees s → relayAgrees (checkTime s now)) ∧
    (∀ s now msg, relayAgrees s → relayAgrees (tick s now msg)) :=
  ⟨rfl, fun s now d _ => relayAgrees_powerOn s now d,
    fun s now d h => relayAgrees_powerOff s now d h,
    fun s now h => relayAgrees_checkTime s now h,
    fun s now msg h => relayAgrees_tick s now msg h⟩

theorem C10_relay_invariant_witness :
    relayAgrees initState ∧
    relayAgrees (powerOn initState 0 5) ∧
    relayAgrees (tick (powerOn initState 0 5) 9000 none) :=
  ⟨C10_relay_invariant.1,
    C10_relay_invariant.2.1 initState 0 5 rfl,
    C10_relay_invariant.2.2.2.2 (powerOn initState 0 5) 9000 none rfl⟩

end CCS
